import Mathlib

/-!
# Verification of the tutorial-hardhat-deploy scaffold

Shallow embedding of the configuration objects of this repository
(`src/hardhat.config.ts` and the second, reduced config file) and of the
per-test setup orchestration in `src/test/Test.test.ts`, together with
models of the repository code that the tests import but whose files are
absent here (`src/test/utils` with `setupUser` and `setupUsers`,
`src/utils/network.ts` with `node_url` and `accounts`, the Token contract
and its deploy script).  Account addresses are modelled as `Nat`: the
external framework resolves a named account to the address at its
configured index, so the index itself serves as the opaque address
identifier.
-/

namespace TutorialHardhatDeploy

/-- Addresses are opaque account identifiers; modelled as the index of the
account in the list of test accounts provided by the framework. -/
abbrev Address := Nat

/-- Environment-variable lookup, as seen by the configuration helpers. -/
abbrev Env := String → Option String

/-- The environment key holding the RPC endpoint URL for a named network. -/
def nodeUriKey (networkName : String) : String :=
  "ETH_NODE_URI_" ++ networkName

/-- The environment key holding the credential (mnemonic) for a named network. -/
def mnemonicKey (networkName : String) : String :=
  "MNEMONIC_" ++ networkName

/-- Modelled from the spec: `node_url` from `src/utils/network.ts`, which is
imported by `src/hardhat.config.ts` but absent from the sources given.  Per
the spec it produces the connection endpoint URL for a named network from
the environment and fails fast when the required value is absent, with no
silent default. -/
def node_url (env : Env) (networkName : String) : Except String String :=
  match env (nodeUriKey networkName) with
  | some u => Except.ok u
  | none => Except.error ("missing node url for network " ++ networkName)

/-- Modelled from the spec: `accounts` from `src/utils/network.ts` (absent
from the sources given).  Per the spec it produces the ordered credential
list for a named network from the environment and fails fast when the
required value is absent. -/
def accounts (env : Env) (networkName : String) : Except String (List String) :=
  match env (mnemonicKey networkName) with
  | some m => Except.ok [m]
  | none => Except.error ("missing credentials for network " ++ networkName)

/-- A resolved network entry of the configuration: endpoint plus credential
list (`networks.rinkeby` in `src/hardhat.config.ts`). -/
structure NetworkConf where
  url : String
  accountsList : List String
deriving DecidableEq, Repr

/-- A resolved Hardhat configuration, shaped after the config object of
`src/hardhat.config.ts`. -/
structure ResolvedConfig where
  solidityVersion : String
  networks : List (String × NetworkConf)
  namedAccounts : List (String × Nat)
  sourcesPath : String
deriving DecidableEq, Repr

/-- The `namedAccounts` object of `src/hardhat.config.ts`:
`deployer: 0, tokenOwner: 1`. -/
def namedAccountsConfig : List (String × Nat) :=
  [("deployer", 0), ("tokenOwner", 1)]

/-- The `namedAccounts` object of the second, reduced configuration file
(`src/unnamed/part_000`): `deployer: 0`. -/
def namedAccountsConfigSimple : List (String × Nat) :=
  [("deployer", 0)]

/-- The configuration object of `src/hardhat.config.ts` as a function of the
environment.  In the source, `node_url('rinkeby')` and `accounts('rinkeby')`
are evaluated while the module loads, so a failure in either surfaces at
configuration-load time; here that is the `Except.error` case. -/
def resolveConfig (env : Env) : Except String ResolvedConfig :=
  match node_url env ("rinkeby"), accounts env ("rinkeby") with
  | Except.ok u, Except.ok accs =>
      Except.ok
        { solidityVersion := "0.7.6"
          networks := [("rinkeby", { url := u, accountsList := accs })]
          namedAccounts := namedAccountsConfig
          sourcesPath := "src" }
  | Except.error e, _ => Except.error e
  | _, Except.error e => Except.error e

/-- A contract handle: a callable proxy for a named deployed contract, bound
to the signing identity `signer` for write operations. -/
structure ContractHandle where
  name : String
  signer : Address
deriving DecidableEq, Repr

/-- The rebind-signer operation of the contract-handle interface
(`contract.connect(signer)` in the utilities of the tests): an equivalent
handle that signs as `a`, sharing no mutable state with the original. -/
def ContractHandle.connect (h : ContractHandle) (a : Address) : ContractHandle :=
  { h with signer := a }

/-- A User view: an address paired with contract handles pre-bound to sign
as that address. -/
structure User where
  address : Address
  contracts : List (String × ContractHandle)
deriving DecidableEq, Repr

/-- Modelled from the spec: `setupUser` from `src/test/utils` (imported by
`src/test/Test.test.ts` but absent from the sources given).  Produces a User
view whose contract handles are rebound to sign as the given address. -/
def setupUser (a : Address) (contracts : List (String × ContractHandle)) : User :=
  { address := a
    contracts := contracts.map (fun p => (p.1, p.2.connect a)) }

/-- Modelled from the spec: `setupUsers` from `src/test/utils` (absent from
the sources given).  Calls `setupUser` once per address, preserving order. -/
def setupUsers (addrs : List Address) (contracts : List (String × ContractHandle)) :
    List User :=
  addrs.map (fun a => setupUser a contracts)

/-- On-chain state of the deployed Token contract. -/
structure TokenState where
  owner : Address
  totalSupply : Nat
  balances : Address → Nat

/-- Point update of a balance mapping. -/
def setBalance (b : Address → Nat) (a : Address) (v : Nat) : Address → Nat :=
  fun x => if x = a then v else b x

/-- The `balanceOf` read call of the Token contract. -/
def balanceOf (c : TokenState) (a : Address) : Nat :=
  c.balances a

/-- Modelled from the spec: `transfer` of the Token contract (the contract
source is absent from the sources given).  Per the scenarios of the spec and
the comments of the test, a transfer by a sender with insufficient balance
reverts with message "Not enough tokens" and leaves state unchanged;
otherwise the amount moves from sender to recipient.  The result pairs the
chain state after the call with the revert message when the call
reverted. -/
def transfer (c : TokenState) (sender recipient : Address) (amount : Nat) :
    TokenState × Option String :=
  if c.balances sender < amount then
    (c, some ("Not enough tokens"))
  else
    let b1 := setBalance c.balances sender (c.balances sender - amount)
    let b2 := setBalance b1 recipient (b1 recipient + amount)
    ({ c with balances := b2 }, none)

/-- The initial supply minted by the Token contract, taken from the comment
in the test: the owner starts with 1000 tokens. -/
def INITIAL_SUPPLY : Nat := 1000

/-- The address resolved for the `tokenOwner` role: the account at its
configured index 1. -/
def tokenOwnerAddr : Address := 1

/-- Modelled from the spec: the post-deployment state of the "Token"
deployment group (the contract and deploy-script sources are absent from the
sources given).  Per the scenarios of the spec, the recorded owner of the
contract is the address resolved for `tokenOwner` and the entire initial
supply is held by that owner. -/
def deployedToken : TokenState :=
  { owner := tokenOwnerAddr
    totalSupply := INITIAL_SUPPLY
    balances := fun a => if a = tokenOwnerAddr then INITIAL_SUPPLY else 0 }

/-- Number of test accounts made available by the framework on its local
network (the framework default of 20; the tests only need the first two
unnamed ones). -/
def NUM_TEST_ACCOUNTS : Nat := 20

/-- The ordered list of available test-account addresses. -/
def availableAccounts : List Address := List.range NUM_TEST_ACCOUNTS

/-- The account indices claimed by named roles in the configuration. -/
def namedIndices : List Nat := namedAccountsConfig.map Prod.snd

/-- The named-account interface consumed by the tests: each configured role
resolved to the address at its index. -/
def getNamedAccounts : List (String × Address) := namedAccountsConfig

/-- The unnamed-account interface consumed by the tests: every available
account not assigned a symbolic role. -/
def getUnnamedAccounts : List Address :=
  availableAccounts.filter (fun a => !(namedIndices.contains a))

/-- The default signer of the framework, to which freshly fetched contract
handles are bound: the first available account. -/
def defaultSigner : Address := 0

/-- The contract-handle interface consumed by the tests
(`ethers.getContract`): a handle for a named deployed contract, bound to the
default signer. -/
def getContract (nm : String) : ContractHandle :=
  { name := nm, signer := defaultSigner }

/-- The deployment-fixture interface consumed by the tests
(`deployments.fixture`): requesting the "Token" deployment group resets the
chain to the post-deployment snapshot of that group, whatever state the
chain was in. -/
def fixture (tags : List String) (c : TokenState) : TokenState :=
  if tags.contains ("Token") then deployedToken else c

/-- The external calls issued by the setup routine, in order. -/
inductive Effect where
  | fixtureCall (tags : List String)
  | getContractCall (nm : String)
  | getNamedAccountsCall
  | getUnnamedAccountsCall
deriving DecidableEq, Repr

/-- The bundle returned by `setup` in `src/test/Test.test.ts`, together with
the chain state it leaves behind and the trace of external calls it made. -/
structure SetupResult where
  Token : ContractHandle
  users : List User
  tokenOwner : User
  chain : TokenState
  trace : List Effect

/-- The per-test `setup` routine of `src/test/Test.test.ts`: request the
"Token" deployment fixture, fetch the deployed contract handle, resolve the
`tokenOwner` named account and the unnamed accounts, build the User views,
and return the bundle `\x7b...contracts, users, tokenOwner\x7d`. -/
def setup (c : TokenState) : SetupResult :=
  let c1 := fixture [("Token")] c
  let token := getContract ("Token")
  let contracts := [("Token", token)]
  let ownerAddr := (getNamedAccounts.lookup ("tokenOwner")).getD 0
  let users := setupUsers getUnnamedAccounts contracts
  { Token := token
    users := users
    tokenOwner := setupUser ownerAddr contracts
    chain := c1
    trace := [Effect.fixtureCall [("Token")], Effect.getContractCall ("Token"),
              Effect.getNamedAccountsCall, Effect.getUnnamedAccountsCall] }

/-- A write call issued through the Token handle of a User view
(`user.Token.transfer(recipient, amount)` in the tests): the transfer is
submitted with the bound signer of the handle as the sender. -/
def userTransfer (c : TokenState) (u : User) (recipient : Address) (amount : Nat) :
    TokenState × Option String :=
  match u.contracts.lookup ("Token") with
  | some h => transfer c h.signer recipient amount
  | none => (c, some ("Token handle not found"))

/-- The concrete Token handle fetched by `setup`. -/
def tokenHandle : ContractHandle := getContract ("Token")

/-- The contract mapping built by `setup`. -/
def setupContracts : List (String × ContractHandle) := [("Token", tokenHandle)]

/-- An environment with no variables set, used as a concrete input for the
configuration-failure theorem. -/
def emptyEnv : Env := fun _ => none

/-! ## Helper lemmas -/

/-- Looking a name up in a contract mapping whose handles were all rebound
to `a` gives the original handle rebound to `a`. -/
theorem lookup_map_connect (l : List (String × ContractHandle)) (a : Address) (k : String) :
    (l.map (fun p => (p.1, p.2.connect a))).lookup k
      = (l.lookup k).map (fun h => h.connect a) := by
  induction l with
  | nil => rfl
  | cons q t ih =>
      simp only [List.map_cons, List.lookup]
      cases hk : k == q.1 <;> simp [ih]

/-- A pair present in an association list makes lookup of its key succeed. -/
theorem exists_lookup_of_mem (l : List (String × ContractHandle))
    (p : String × ContractHandle) (hp : p ∈ l) :
    ∃ v, l.lookup p.1 = some v := by
  induction l with
  | nil => cases hp
  | cons q t ih =>
      rcases List.mem_cons.1 hp with h | h
      · subst h
        exact ⟨p.2, by simp [List.lookup]⟩
      · cases hk : p.1 == q.1 with
        | true => exact ⟨q.2, by simp [List.lookup, hk]⟩
        | false =>
            obtain ⟨v, hv⟩ := ih h
            exact ⟨v, by simp [List.lookup, hk, hv]⟩

/-- The fixture request in `setup` resets the chain to the post-deployment
snapshot of the "Token" group, whatever the prior chain state. -/
theorem setup_chain (c0 : TokenState) : (setup c0).chain = deployedToken := rfl

/-- The users returned by `setup` are the User views of the unnamed
accounts. -/
theorem setup_users_eq (c0 : TokenState) :
    (setup c0).users = setupUsers getUnnamedAccounts setupContracts := rfl

/-- The owner returned by `setup` is the User view of the resolved
`tokenOwner` address. -/
theorem setup_tokenOwner_eq (c0 : TokenState) :
    (setup c0).tokenOwner = setupUser tokenOwnerAddr setupContracts := rfl

/-! ## Claim theorems -/

/-- C1: `setupUsers(addrs, contracts)` returns one User view per input
address, order and length preserved; the view at position `i` has address
`addrs[i]`, and for every contract name in the input mapping its handle in
that view is bound to sign as `addrs[i]`. -/
theorem setupUsers_views (addrs : List Address) (contracts : List (String × ContractHandle)) :
    (setupUsers addrs contracts).length = addrs.length ∧
    ∀ i a, addrs.get? i = some a →
      ∃ u, (setupUsers addrs contracts).get? i = some u ∧
        u.address = a ∧
        ∀ p ∈ contracts, ∃ h, u.contracts.lookup p.1 = some h ∧ h.signer = a := by
  refine ⟨List.length_map _ _, ?_⟩
  intro i a ha
  refine ⟨setupUser a contracts, ?_, rfl, ?_⟩
  · simp only [setupUsers, List.get?_eq_getElem?, List.getElem?_map] at ha ⊢
    rw [ha]
    rfl
  · intro p hp
    obtain ⟨v, hv⟩ := exists_lookup_of_mem contracts p hp
    refine ⟨v.connect a, ?_, rfl⟩
    simp [setupUser, lookup_map_connect, hv]

/-- Witness for C1: the second of two concrete addresses, with the concrete
contract mapping built by `setup`. -/
theorem setupUsers_views_witness :
    ([7, 8] : List Address).get? 1 = some 8 ∧
    ∃ u, (setupUsers [7, 8] setupContracts).get? 1 = some u ∧
      u.address = 8 ∧
      ∀ p ∈ setupContracts, ∃ h, u.contracts.lookup p.1 = some h ∧ h.signer = 8 :=
  ⟨by decide, (setupUsers_views [7, 8] setupContracts).2 1 8 (by decide)⟩

/-- C2: the named-account role mapping of `src/hardhat.config.ts` maps
`deployer` to index 0 and `tokenOwner` to index 1; indices are distinct and
each role is bound exactly once (the mapping is a constant object, so there
is no runtime reassignment); the reduced config maps `deployer` to 0. -/
theorem namedAccounts_roles :
    namedAccountsConfig.lookup ("deployer") = some 0 ∧
    namedAccountsConfig.lookup ("tokenOwner") = some 1 ∧
    (namedAccountsConfig.map Prod.snd).Nodup ∧
    (namedAccountsConfig.map Prod.fst).Nodup ∧
    namedAccountsConfigSimple.lookup ("deployer") = some 0 ∧
    (namedAccountsConfigSimple.map Prod.snd).Nodup ∧
    (namedAccountsConfigSimple.map Prod.fst).Nodup := by
  refine ⟨rfl, rfl, ?_, ?_, rfl, ?_, ?_⟩ <;> decide

/-- C3: after setup, `users[0]` has balance 0; its attempt to transfer 1
token to the owner reverts with message "Not enough tokens", and the owner
balance after the failed call equals the owner balance before it. -/
theorem insufficient_transfer_reverts (c0 : TokenState) :
    ∃ u0, (setup c0).users.get? 0 = some u0 ∧
      balanceOf (setup c0).chain u0.address = 0 ∧
      (userTransfer (setup c0).chain u0 (setup c0).tokenOwner.address 1).2
        = some ("Not enough tokens") ∧
      balanceOf (userTransfer (setup c0).chain u0 (setup c0).tokenOwner.address 1).1
          (setup c0).tokenOwner.address
        = balanceOf (setup c0).chain (setup c0).tokenOwner.address := by
  rw [setup_users_eq, setup_chain, setup_tokenOwner_eq]
  exact ⟨setupUser 2 setupContracts, by decide, by decide, by decide, by decide⟩

/-- Witness for C3: the scenario evaluated from a concrete prior chain
state. -/
theorem insufficient_transfer_reverts_witness :
    ∃ u0, (setup deployedToken).users.get? 0 = some u0 ∧
      balanceOf (setup deployedToken).chain u0.address = 0 ∧
      (userTransfer (setup deployedToken).chain u0 (setup deployedToken).tokenOwner.address 1).2
        = some ("Not enough tokens") ∧
      balanceOf
          (userTransfer (setup deployedToken).chain u0
            (setup deployedToken).tokenOwner.address 1).1
          (setup deployedToken).tokenOwner.address
        = balanceOf (setup deployedToken).chain (setup deployedToken).tokenOwner.address :=
  insufficient_transfer_reverts deployedToken

/-- C4: running `setup` from any two chain states — in particular from the
state left by a first run and then mutated arbitrarily by a test — yields a
Token contract with the same total supply and the same owner balance both
times: the snapshot reset is deterministic and idempotent. -/
theorem setup_deterministic (c0 t : TokenState) :
    (setup t).chain.totalSupply = (setup c0).chain.totalSupply ∧
    balanceOf (setup t).chain (setup t).chain.owner
      = balanceOf (setup c0).chain (setup c0).chain.owner := by
  rw [setup_chain, setup_chain]
  exact ⟨rfl, rfl⟩

/-- Witness for C4: the second run starts from a state a test mutated by a
successful transfer. -/
theorem setup_deterministic_witness :
    (setup (userTransfer deployedToken (setupUser tokenOwnerAddr setupContracts) 2 100).1).chain.totalSupply
      = (setup deployedToken).chain.totalSupply ∧
    balanceOf (setup (userTransfer deployedToken (setupUser tokenOwnerAddr setupContracts) 2 100).1).chain
        (setup (userTransfer deployedToken (setupUser tokenOwnerAddr setupContracts) 2 100).1).chain.owner
      = balanceOf (setup deployedToken).chain (setup deployedToken).chain.owner :=
  setup_deterministic deployedToken
    (userTransfer deployedToken (setupUser tokenOwnerAddr setupContracts) 2 100).1

/-- C5: immediately after setup, the balance of the `tokenOwner` address
equals the total supply of the Token contract. -/
theorem supply_held_by_owner (c0 : TokenState) :
    balanceOf (setup c0).chain (setup c0).tokenOwner.address
      = (setup c0).chain.totalSupply := by
  rw [setup_chain, setup_tokenOwner_eq]
  decide

/-- Witness for C5: evaluated from a concrete prior chain state. -/
theorem supply_held_by_owner_witness :
    balanceOf (setup deployedToken).chain (setup deployedToken).tokenOwner.address
      = (setup deployedToken).chain.totalSupply :=
  supply_held_by_owner deployedToken

/-- C6: from the post-setup state, after the owner transfers 100 tokens to
`users[0]` and then 50 tokens to `users[1]`, the final owner balance is the
initial owner balance minus 150, `users[0]` holds 100 and `users[1]` holds
50. -/
theorem balances_after_transfers (c0 : TokenState) :
    ∃ u0 u1,
      (setup c0).users.get? 0 = some u0 ∧
      (setup c0).users.get? 1 = some u1 ∧
      balanceOf
          (userTransfer
            (userTransfer (setup c0).chain (setup c0).tokenOwner u0.address 100).1
            (setup c0).tokenOwner u1.address 50).1
          (setup c0).tokenOwner.address
        = balanceOf (setup c0).chain (setup c0).tokenOwner.address - 150 ∧
      balanceOf
          (userTransfer
            (userTransfer (setup c0).chain (setup c0).tokenOwner u0.address 100).1
            (setup c0).tokenOwner u1.address 50).1
          u0.address = 100 ∧
      balanceOf
          (userTransfer
            (userTransfer (setup c0).chain (setup c0).tokenOwner u0.address 100).1
            (setup c0).tokenOwner u1.address 50).1
          u1.address = 50 := by
  rw [setup_users_eq, setup_chain, setup_tokenOwner_eq]
  exact ⟨setupUser 2 setupContracts, setupUser 3 setupContracts,
    by decide, by decide, by decide, by decide, by decide⟩

/-- Witness for C6: the scenario evaluated from a concrete prior chain
state. -/
theorem balances_after_transfers_witness :
    ∃ u0 u1,
      (setup deployedToken).users.get? 0 = some u0 ∧
      (setup deployedToken).users.get? 1 = some u1 ∧
      balanceOf
          (userTransfer
            (userTransfer (setup deployedToken).chain (setup deployedToken).tokenOwner u0.address 100).1
            (setup deployedToken).tokenOwner u1.address 50).1
          (setup deployedToken).tokenOwner.address
        = balanceOf (setup deployedToken).chain (setup deployedToken).tokenOwner.address - 150 ∧
      balanceOf
          (userTransfer
            (userTransfer (setup deployedToken).chain (setup deployedToken).tokenOwner u0.address 100).1
            (setup deployedToken).tokenOwner u1.address 50).1
          u0.address = 100 ∧
      balanceOf
          (userTransfer
            (userTransfer (setup deployedToken).chain (setup deployedToken).tokenOwner u0.address 100).1
            (setup deployedToken).tokenOwner u1.address 50).1
          u1.address = 50 :=
  balances_after_transfers deployedToken

/-- C7: `setup` first requests the "Token" deployment fixture, then fetches
the deployed contract handle, then resolves named and unnamed accounts, and
returns a single bundle exposing the raw Token handle, the owner User view
and the ordered list of User views for the unnamed accounts. -/
theorem setup_returns_bundle (c0 : TokenState) :
    (setup c0).trace
      = [Effect.fixtureCall [("Token")], Effect.getContractCall ("Token"),
         Effect.getNamedAccountsCall, Effect.getUnnamedAccountsCall] ∧
    (setup c0).Token = tokenHandle ∧
    (setup c0).tokenOwner = setupUser tokenOwnerAddr setupContracts ∧
    (setup c0).users = setupUsers getUnnamedAccounts setupContracts :=
  ⟨rfl, rfl, rfl, rfl⟩

/-- Witness for C7: evaluated from a concrete prior chain state. -/
theorem setup_returns_bundle_witness :
    (setup deployedToken).trace
      = [Effect.fixtureCall [("Token")], Effect.getContractCall ("Token"),
         Effect.getNamedAccountsCall, Effect.getUnnamedAccountsCall] ∧
    (setup deployedToken).Token = tokenHandle ∧
    (setup deployedToken).tokenOwner = setupUser tokenOwnerAddr setupContracts ∧
    (setup deployedToken).users = setupUsers getUnnamedAccounts setupContracts :=
  setup_returns_bundle deployedToken

/-- C8: if the environment value for the rinkeby endpoint URL or for its
credential list is absent, configuration resolution fails at
configuration-load time with an error, never yielding a resolved
configuration with a silent default. -/
theorem missing_env_fails_configuration (env : Env)
    (hmiss : env (nodeUriKey ("rinkeby")) = none ∨ env (mnemonicKey ("rinkeby")) = none) :
    ∃ e, resolveConfig env = Except.error e := by
  unfold resolveConfig node_url accounts
  rcases hmiss with h | h
  · rw [h]
    cases env (mnemonicKey ("rinkeby")) <;> exact ⟨_, rfl⟩
  · rw [h]
    cases env (nodeUriKey ("rinkeby")) <;> exact ⟨_, rfl⟩

/-- Witness for C8: an environment with no variables set makes resolution
fail. -/
theorem missing_env_fails_configuration_witness :
    (emptyEnv (nodeUriKey ("rinkeby")) = none ∨ emptyEnv (mnemonicKey ("rinkeby")) = none) ∧
    ∃ e, resolveConfig emptyEnv = Except.error e :=
  ⟨Or.inl rfl, missing_env_fails_configuration emptyEnv (Or.inl rfl)⟩

/-- C9: after every run of setup, the owner recorded in the Token contract
is exactly the address resolved for the `tokenOwner` named account, which is
also the address of the owner User view in the returned bundle. -/
theorem owner_is_resolved_tokenOwner (c0 : TokenState) :
    (setup c0).chain.owner = (getNamedAccounts.lookup ("tokenOwner")).getD 0 ∧
    (setup c0).chain.owner = (setup c0).tokenOwner.address :=
  ⟨rfl, rfl⟩

/-- Witness for C9: evaluated from a concrete prior chain state. -/
theorem owner_is_resolved_tokenOwner_witness :
    (setup deployedToken).chain.owner = (getNamedAccounts.lookup ("tokenOwner")).getD 0 ∧
    (setup deployedToken).chain.owner = (setup deployedToken).tokenOwner.address :=
  owner_is_resolved_tokenOwner deployedToken

/-- C10: every handle in the `users[0]` view signs as `users[0]`; after the
owner sends 50 tokens to `users[0]` and `users[0].Token.transfer` sends 50
tokens to `users[1]`, the call succeeds, `users[1]` holds 50, `users[0]` is
debited back to 0 and the owner lost only the first 50 — the second
transfer was submitted as `users[0]`, not as the owner or the default
signer. -/
theorem user_view_transfer_signs_as_user (c0 : TokenState) :
    ∃ u0 u1,
      (setup c0).users.get? 0 = some u0 ∧
      (setup c0).users.get? 1 = some u1 ∧
      (∀ p ∈ u0.contracts, p.2.signer = u0.address) ∧
      (userTransfer
          (userTransfer (setup c0).chain (setup c0).tokenOwner u0.address 50).1
          u0 u1.address 50).2 = none ∧
      balanceOf
          (userTransfer
            (userTransfer (setup c0).chain (setup c0).tokenOwner u0.address 50).1
            u0 u1.address 50).1 u1.address = 50 ∧
      balanceOf
          (userTransfer
            (userTransfer (setup c0).chain (setup c0).tokenOwner u0.address 50).1
            u0 u1.address 50).1 u0.address = 0 ∧
      balanceOf
          (userTransfer
            (userTransfer (setup c0).chain (setup c0).tokenOwner u0.address 50).1
            u0 u1.address 50).1 (setup c0).tokenOwner.address
        = balanceOf (setup c0).chain (setup c0).tokenOwner.address - 50 := by
  rw [setup_users_eq, setup_chain, setup_tokenOwner_eq]
  exact ⟨setupUser 2 setupContracts, setupUser 3 setupContracts,
    by decide, by decide, by decide, by decide, by decide, by decide, by decide⟩

/-- Witness for C10: the scenario evaluated from a concrete prior chain
state. -/
theorem user_view_transfer_signs_as_user_witness :
    ∃ u0 u1,
      (setup deployedToken).users.get? 0 = some u0 ∧
      (setup deployedToken).users.get? 1 = some u1 ∧
      (∀ p ∈ u0.contracts, p.2.signer = u0.address) ∧
      (userTransfer
          (userTransfer (setup deployedToken).chain (setup deployedToken).tokenOwner u0.address 50).1
          u0 u1.address 50).2 = none ∧
      balanceOf
          (userTransfer
            (userTransfer (setup deployedToken).chain (setup deployedToken).tokenOwner u0.address 50).1
            u0 u1.address 50).1 u1.address = 50 ∧
      balanceOf
          (userTransfer
            (userTransfer (setup deployedToken).chain (setup deployedToken).tokenOwner u0.address 50).1
            u0 u1.address 50).1 u0.address = 0 ∧
      balanceOf
          (userTransfer
            (userTransfer (setup deployedToken).chain (setup deployedToken).tokenOwner u0.address 50).1
            u0 u1.address 50).1 (setup deployedToken).tokenOwner.address
        = balanceOf (setup deployedToken).chain (setup deployedToken).tokenOwner.address - 50 :=
  user_view_transfer_signs_as_user deployedToken

end TutorialHardhatDeploy
